import Mathlib

/-!
# Verification of the voice2txt configuration and control-flow logic

Shallow embedding of `src/V1/voice2txt.py`. The Python `dict` holding the
configuration document is modelled as an association list `Config`; Python
truthiness of optional strings (`None` and `""` are falsy) is modelled by
`truthy`; the filesystem state of the configuration file is `FileContent`;
the externally determined outcome of the one network call is `ApiOutcome`.
The `__main__` block is embedded as the pure function `runMain`, which
records the exit status, the final on-disk configuration, whether the
network client was invoked, the transcript, and the messages printed.
-/

set_option autoImplicit false

/-- A JSON-object configuration document: string keys to string values,
as produced by `json.load` of the config file (Python `dict`). -/
def Config : Type := List (String × String)

instance : DecidableEq Config := by
  unfold Config
  infer_instance

instance : Append Config := by
  unfold Config
  infer_instance

/-- First-occurrence lookup, the semantics of Python `dict` access
(a `dict` never holds duplicate keys, so the first occurrence is the value). -/
def dictGet : Config → String → Option String
  | [], _ => none
  | (k0, v) :: rest, k => if k0 = k then some v else dictGet rest k

/-- Python `d[k] = v`: replace the value at the first occurrence of `k`,
or append a fresh entry when `k` is absent. -/
def dictInsert : Config → String → String → Config
  | [], k, v => [(k, v)]
  | (k0, v0) :: rest, k, v =>
      if k0 = k then (k0, v) :: rest
      else (k0, v0) :: dictInsert rest k v

/-- Python `d.update(n)`: insert every entry of `n` into `d`, in order.
Embeds `self.config.update(config_values)` at line 43 of voice2txt.py. -/
def dictUpdate : Config → Config → Config
  | d, [] => d
  | d, (k, v) :: rest => dictUpdate (dictInsert d k v) rest

/-- The keys of the document are pairwise distinct (always true of an
actual Python `dict`). -/
def keysNodup : Config → Bool
  | [] => true
  | (k, _) :: rest => (dictGet rest k).isNone && keysNodup rest

/-- Python truthiness of an optional string: `None` and `""` are falsy,
every other string is truthy. Drives every `x or y` and `if x:` in the
source that ranges over `Optional[str]`. -/
def truthy : Option String → Bool
  | none => false
  | some s => s ≠ ""

/-- Python `a or b` restricted to optional strings: `a` when truthy,
otherwise `b`. -/
def pyOr (a b : Option String) : Option String :=
  if truthy a then a else b

/-- Messages the program prints, abstracted to tags (with the detail
strings that the source interpolates). -/
inductive Msg where
  /-- "读取配置文件时出错" — config file read/parse failure (line 31). -/
  | loadFailed (e : String)
  /-- "配置已保存到 …" — successful save (line 48). -/
  | configSaved
  /-- "保存配置文件时出错" — config file write failure (line 50). -/
  | saveFailed (e : String)
  /-- "错误：找不到文件 …" — audio file not found (line 79). -/
  | fileNotFound
  /-- "API 返回错误: …" — remote service error (line 98). -/
  | apiErr (details : String)
  /-- "发生意外错误: …" — unexpected/transport error (line 101). -/
  | unexpectedErr (m : String)
  /-- "转录完成." — transcription finished (line 92). -/
  | transcribeDone
  /-- "错误：请设置 OPENAI_API_KEY …" — missing credential (line 125). -/
  | missingKey
  /-- "警告：没有提供要保存的配置值…" — `--save` with nothing to save (line 152). -/
  | saveWarning
  /-- "转录结果: …" — the printed transcript (lines 159-160). -/
  | result (t : String)
  deriving DecidableEq

/-- State of the configuration file on disk: absent, present and parsing
to a JSON object, or present but unreadable/unparsable (any exception
raised by `open`/`json.load`, carrying its message). -/
inductive FileContent where
  | absent
  | parses (d : Config)
  | corrupt (e : String)
  deriving DecidableEq

/-- `ConfigManager._load_config` (lines 19-33): the parsed document if the
file exists and parses, `{}` if the file is absent, and on any exception a
printed report and `{}`. Returns the mapping and the messages printed. -/
def _load_config : FileContent → Config × List Msg
  | FileContent.absent => ([], [])
  | FileContent.parses d => (d, [])
  | FileContent.corrupt e => ([], [Msg.loadFailed e])

/-- `ConfigManager.get` (lines 52-63): `self.config.get(key, default)`. -/
def cfgGet (c : Config) (key : String) (dflt : Option String) : Option String :=
  match dictGet c key with
  | some v => some v
  | none => dflt

/-- How the attempted rewrite of the config file goes, decided by the
filesystem. `open(self.config_file, 'w')` truncates the file as soon as
it succeeds, so a failure has two distinct shapes: the `open` itself
raises (permissions, bad path — the file keeps its prior contents), or
`json.dump`/the implicit flush on close raises after the truncation
(disk full, I/O error — the file is left holding whatever partial output
the aborted write produced, carried here as `leftover`). -/
inductive WriteOutcome where
  | ok
  | openFailed (e : String)
  | dumpFailed (e : String) (leftover : FileContent)
  deriving DecidableEq

/-- `ConfigManager.save_config` (lines 35-50): merge `config_values` into
the in-memory mapping first (line 43), then attempt to rewrite the file;
any exception is reported and swallowed. An `open` failure leaves the
disk in its prior state; a failure after the truncating `open` leaves
the aborted write's residue. Returns the new in-memory mapping, the new
disk state, and the messages printed. -/
def save_config (mem : Config) (disk : FileContent) (wr : WriteOutcome)
    (config_values : Config) : Config × FileContent × List Msg :=
  let mem2 := dictUpdate mem config_values
  match wr with
  | WriteOutcome.ok => (mem2, FileContent.parses mem2, [Msg.configSaved])
  | WriteOutcome.openFailed e => (mem2, disk, [Msg.saveFailed e])
  | WriteOutcome.dumpFailed e leftover => (mem2, leftover, [Msg.saveFailed e])

/-- Outcome of the one call to `client.audio.transcriptions.create`,
determined by the external service: success with the transcript text,
an `APIError` with its details, or any other exception. -/
inductive ApiOutcome where
  | ok (text : String)
  | apiError (details : String)
  | unexpected (m : String)
  deriving DecidableEq

/-- `transcribe_audio` (lines 65-102): if the path is not an existing
regular file, report and return `None` without touching the client;
otherwise invoke the client once and return the transcript, or report the
`APIError` / unexpected exception and return `None`. Result: the returned
transcript, whether the client was invoked, and the messages printed. -/
def transcribe_audio (fileExists : Bool) (o : ApiOutcome) :
    Option String × Bool × List Msg :=
  if fileExists then
    match o with
    | ApiOutcome.ok t => (some t, true, [Msg.transcribeDone])
    | ApiOutcome.apiError d => (none, true, [Msg.apiErr d])
    | ApiOutcome.unexpected m => (none, true, [Msg.unexpectedErr m])
  else (none, false, [Msg.fileNotFound])

/-- The parsed CLI arguments (lines 109-116): the positional audio path,
the optional `--base-url` and `--api-key` values (argparse default
`None`), and the `--save` flag. -/
structure Args where
  audio_file : String
  base_url : Option String
  api_key : Option String
  save : Bool
  deriving DecidableEq

/-- The ambient state the run depends on: the configuration file on disk,
the `OPENAI_API_KEY` environment variable, whether the audio file exists,
the outcome the remote service would produce, and how an attempted
config rewrite would go. -/
structure World where
  disk : FileContent
  env_api_key : Option String
  fileExists : Bool
  apiOutcome : ApiOutcome
  write : WriteOutcome
  deriving DecidableEq

/-- Observable result of one run of the `__main__` block. -/
structure RunResult where
  exitCode : Nat
  finalDisk : FileContent
  networkCalled : Bool
  transcript : Option String
  msgs : List Msg
  deriving DecidableEq

/-- Line 122: `args.api_key or config_manager.get("api_key") or
os.getenv("OPENAI_API_KEY")`. -/
def api_key_to_use (cli stored env : Option String) : Option String :=
  pyOr cli (pyOr stored env)

/-- Line 131: `args.base_url or config_manager.get("base_url")`. -/
def base_url_to_use (cli stored : Option String) : Option String :=
  pyOr cli stored

/-- The api_key line 122 computes for given arguments and world. -/
def resolvedKey (args : Args) (w : World) : Option String :=
  api_key_to_use args.api_key
    (cfgGet (_load_config w.disk).1 "api_key" none) w.env_api_key

/-- Lines 141-146: the `config_to_save` dict (`api_key` entry first,
then `base_url`, each only when the CLI value is truthy). -/
def config_to_save (args : Args) : Config :=
  (if truthy args.api_key then [("api_key", args.api_key.getD "")] else [])
    ++ (if truthy args.base_url then [("base_url", args.base_url.getD "")] else [])

/-- The `__main__` block (lines 104-160) as a pure function of the
arguments and the ambient world: load the config, resolve the api key
(exit 1 on failure), resolve the base url, run the `--save` branch, then
call ` transcribe_audio` and print the result when truthy. -/
def runMain (args : Args) (w : World) : RunResult :=
  let config := (_load_config w.disk).1
  let loadMsgs := (_load_config w.disk).2
  let apiKey := api_key_to_use args.api_key (cfgGet config "api_key" none) w.env_api_key
  if truthy apiKey = false then
    { exitCode := 1, finalDisk := w.disk, networkCalled := false,
      transcript := none, msgs := loadMsgs ++ [Msg.missingKey] }
  else
    let saveStep : Config × FileContent × List Msg :=
      if args.save then
        if (config_to_save args).isEmpty then (config, w.disk, [Msg.saveWarning])
        else save_config config w.disk w.write (config_to_save args)
      else (config, w.disk, [])
    let tr := transcribe_audio w.fileExists w.apiOutcome
    { exitCode := 0, finalDisk := saveStep.2.1, networkCalled := tr.2.1,
      transcript := tr.1,
      msgs := loadMsgs ++ saveStep.2.2 ++ tr.2.2
        ++ (match tr.1 with
            | some t => if t ≠ "" then [Msg.result t] else []
            | none => []) }

/-! ## Dictionary lemmas -/

/-- Lookup after a single Python dict assignment. -/
theorem dictGet_dictInsert (d : Config) (k v k' : String) :
    dictGet (dictInsert d k v) k' = if k = k' then some v else dictGet d k' := by
  induction d with
  | nil => by_cases h : k = k' <;> simp [dictInsert, dictGet, h]
  | cons p rest ih =>
    obtain ⟨k0, v0⟩ := p
    by_cases h0 : k0 = k
    · subst h0
      by_cases h1 : k0 = k' <;> simp [dictInsert, dictGet, h1]
    · by_cases h1 : k0 = k'
      · subst h1
        have h2 : ¬ k = k0 := fun h => h0 h.symm
        simp [dictInsert, dictGet, h0, h2]
      · simp [dictInsert, dictGet, h0, h1, ih]

/-- Lookup after `d.update(n)` when `n` has pairwise-distinct keys: the
value from `n` when present, otherwise the value from `d`. -/
theorem dictGet_dictUpdate (n : Config) (hn : keysNodup n = true) (d : Config)
    (k : String) :
    dictGet (dictUpdate d n) k =
      match dictGet n k with
      | some v => some v
      | none => dictGet d k := by
  induction n generalizing d with
  | nil => simp [dictUpdate, dictGet]
  | cons p rest ih =>
    obtain ⟨k0, v0⟩ := p
    simp only [keysNodup, Bool.and_eq_true, Option.isNone_iff_eq_none] at hn
    obtain ⟨h1, h2⟩ := hn
    have hstep : dictUpdate d ((k0, v0) :: rest) = dictUpdate (dictInsert d k0 v0) rest := rfl
    rw [hstep, ih h2]
    by_cases hk : k0 = k
    · subst hk
      rw [h1]
      simp [dictGet, dictGet_dictInsert]
    · have hk2 : ¬ k0 = k := hk
      cases hrest : dictGet rest k with
      | none => simp [dictGet, hk2, hrest, dictGet_dictInsert]
      | some v => simp [dictGet, hk2, hrest]

/-- Truthiness distributes over Python `or`. -/
theorem truthy_pyOr (a b : Option String) :
    truthy (pyOr a b) = (truthy a || truthy b) := by
  unfold pyOr
  by_cases h : truthy a = true <;> simp [h]

/-! ## Claim theorems -/

/-- C1: for every combination of CLI, stored, and environment values (each
present or absent, presence meaning a non-empty string as everywhere in
this program), credential resolution is a total function returning the
highest-precedence present source: for api_key CLI then stored then
environment; for base_url CLI then stored (no environment fallback);
`none` when no source is present. -/
theorem c1_credential_resolution (cli stored env : Option String)
    (hc : cli ≠ some "") (hs : stored ≠ some "") (he : env ≠ some "") :
    api_key_to_use cli stored env = (cli.orElse fun _ => stored.orElse fun _ => env)
    ∧ base_url_to_use cli stored = (cli.orElse fun _ => stored) := by
  constructor
  · cases cli with
    | some s =>
      have hs1 : s ≠ "" := fun h => hc (by rw [h])
      simp [api_key_to_use, pyOr, truthy, hs1, Option.orElse]
    | none =>
      cases stored with
      | some s =>
        have hs1 : s ≠ "" := fun h => hs (by rw [h])
        simp [api_key_to_use, pyOr, truthy, hs1, Option.orElse]
      | none =>
        cases env with
        | some s =>
          have hs1 : s ≠ "" := fun h => he (by rw [h])
          simp [api_key_to_use, pyOr, truthy, hs1, Option.orElse]
        | none => simp [api_key_to_use, pyOr, truthy, Option.orElse]
  · cases cli with
    | some s =>
      have hs1 : s ≠ "" := fun h => hc (by rw [h])
      simp [base_url_to_use, pyOr, truthy, hs1, Option.orElse]
    | none => simp [base_url_to_use, pyOr, truthy, Option.orElse]

/-- Witness for C1 at a concrete input: a CLI key beats a present
environment key, and an absent CLI base_url falls back to the stored one. -/
theorem c1_credential_resolution_witness :
    api_key_to_use (some "k") none (some "e")
        = ((some "k" : Option String).orElse fun _ => (none : Option String).orElse fun _ => some "e")
    ∧ base_url_to_use (some "k") none = ((some "k" : Option String).orElse fun _ => none) :=
  c1_credential_resolution (some "k") none (some "e") (by decide) (by decide) (by decide)

/-- C2: starting from an on-disk document `D` (and the in-memory mapping
loaded from it), `save_config N` with a successful write followed by
`_load_config` yields `D` merged with `N`: every key of `N` has its value
from `N`, and a key absent from `N` keeps its value from `D`. -/
theorem c2_save_then_load (D N : Config) (hN : keysNodup N = true) :
    (∀ k v, dictGet N k = some v →
      dictGet (_load_config (save_config D (FileContent.parses D) WriteOutcome.ok N).2.1).1 k = some v)
    ∧ (∀ k, dictGet N k = none →
      dictGet (_load_config (save_config D (FileContent.parses D) WriteOutcome.ok N).2.1).1 k = dictGet D k) := by
  constructor
  · intro k v hk
    show dictGet (dictUpdate D N) k = some v
    rw [dictGet_dictUpdate N hN D k, hk]
  · intro k hk
    show dictGet (dictUpdate D N) k = dictGet D k
    rw [dictGet_dictUpdate N hN D k, hk]

/-- Witness for C2: saving `api_key=a` over a stored `base_url=b` keeps
both entries (the testable property of spec §8, line 65). -/
theorem c2_save_then_load_witness :
    keysNodup [("api_key", "a")] = true
    ∧ dictGet (_load_config (save_config [("base_url", "b")]
        (FileContent.parses [("base_url", "b")]) WriteOutcome.ok [("api_key", "a")]).2.1).1 "api_key"
        = some "a"
    ∧ dictGet (_load_config (save_config [("base_url", "b")]
        (FileContent.parses [("base_url", "b")]) WriteOutcome.ok [("api_key", "a")]).2.1).1 "base_url"
        = dictGet [("base_url", "b")] "base_url" := by
  refine ⟨by decide, ?_, ?_⟩
  · exact (c2_save_then_load [("base_url", "b")] [("api_key", "a")] (by decide)).1
      "api_key" "a" (by decide)
  · exact (c2_save_then_load [("base_url", "b")] [("api_key", "a")] (by decide)).2
      "base_url" (by decide)

/-- C3: when no api_key resolves from CLI, stored config, or environment,
the run exits with status 1, prints the missing-credential message, and
the transcription invoker is never reached (no network call, no
transcript). -/
theorem c3_missing_key_fatal (args : Args) (w : World)
    (h : truthy (resolvedKey args w) = false) :
    (runMain args w).exitCode = 1
    ∧ (runMain args w).networkCalled = false
    ∧ (runMain args w).transcript = none
    ∧ Msg.missingKey ∈ (runMain args w).msgs := by
  have h2 : truthy (api_key_to_use args.api_key
      (cfgGet (_load_config w.disk).1 "api_key" none) w.env_api_key) = false := h
  simp [runMain, h2]

/-- Witness for C3: no CLI key, empty disk, no environment key. -/
theorem c3_missing_key_fatal_witness :
    truthy (resolvedKey ⟨"a.mp3", none, none, false⟩
        ⟨FileContent.absent, none, true, ApiOutcome.ok "t", WriteOutcome.ok⟩) = false
    ∧ ((runMain ⟨"a.mp3", none, none, false⟩
        ⟨FileContent.absent, none, true, ApiOutcome.ok "t", WriteOutcome.ok⟩).exitCode = 1
      ∧ (runMain ⟨"a.mp3", none, none, false⟩
        ⟨FileContent.absent, none, true, ApiOutcome.ok "t", WriteOutcome.ok⟩).networkCalled = false
      ∧ (runMain ⟨"a.mp3", none, none, false⟩
        ⟨FileContent.absent, none, true, ApiOutcome.ok "t", WriteOutcome.ok⟩).transcript = none
      ∧ Msg.missingKey ∈ (runMain ⟨"a.mp3", none, none, false⟩
        ⟨FileContent.absent, none, true, ApiOutcome.ok "t", WriteOutcome.ok⟩).msgs) :=
  ⟨by decide, c3_missing_key_fatal _ _ (by decide)⟩

/-- C4: whenever an api_key resolves, the run exits with status 0
whatever the transcription outcome; a missing audio file, a remote
service error, and an unexpected/transport error each yield a printed
message and no transcript but leave the exit status at 0; the
missing-credential case is the only source of a non-zero exit (then 1). -/
theorem c4_exit_status (args : Args) (w : World) :
    (truthy (resolvedKey args w) = true → (runMain args w).exitCode = 0)
    ∧ (truthy (resolvedKey args w) = false → (runMain args w).exitCode = 1)
    ∧ (truthy (resolvedKey args w) = true → w.fileExists = false →
        (runMain args w).transcript = none
        ∧ Msg.fileNotFound ∈ (runMain args w).msgs)
    ∧ (∀ d, truthy (resolvedKey args w) = true → w.fileExists = true →
        w.apiOutcome = ApiOutcome.apiError d →
        (runMain args w).transcript = none ∧ Msg.apiErr d ∈ (runMain args w).msgs)
    ∧ (∀ m, truthy (resolvedKey args w) = true → w.fileExists = true →
        w.apiOutcome = ApiOutcome.unexpected m →
        (runMain args w).transcript = none
        ∧ Msg.unexpectedErr m ∈ (runMain args w).msgs) := by
  have hres : resolvedKey args w = api_key_to_use args.api_key
      (cfgGet (_load_config w.disk).1 "api_key" none) w.env_api_key := rfl
  refine ⟨?_, ?_, ?_, ?_, ?_⟩
  · intro h
    rw [hres] at h
    simp [runMain, h, transcribe_audio]
  · intro h
    rw [hres] at h
    simp [runMain, h]
  · intro h hf
    rw [hres] at h
    simp [runMain, h, hf, transcribe_audio]
  · intro d h hf ho
    rw [hres] at h
    simp [runMain, h, hf, ho, transcribe_audio]
  · intro m h hf ho
    rw [hres] at h
    simp [runMain, h, hf, ho, transcribe_audio]

/-- Witness for C4: with a CLI key and an APIError from the service, the
exit status is 0, no transcript is produced, and the error is printed. -/
theorem c4_exit_status_witness :
    truthy (resolvedKey ⟨"a.mp3", none, some "k", false⟩
        ⟨FileContent.absent, none, true, ApiOutcome.apiError "boom", WriteOutcome.ok⟩) = true
    ∧ (runMain ⟨"a.mp3", none, some "k", false⟩
        ⟨FileContent.absent, none, true, ApiOutcome.apiError "boom", WriteOutcome.ok⟩).exitCode = 0
    ∧ (runMain ⟨"a.mp3", none, some "k", false⟩
        ⟨FileContent.absent, none, true, ApiOutcome.apiError "boom", WriteOutcome.ok⟩).transcript = none
    ∧ Msg.apiErr "boom" ∈ (runMain ⟨"a.mp3", none, some "k", false⟩
        ⟨FileContent.absent, none, true, ApiOutcome.apiError "boom", WriteOutcome.ok⟩).msgs :=
  ⟨by decide,
    (c4_exit_status ⟨"a.mp3", none, some "k", false⟩
      ⟨FileContent.absent, none, true, ApiOutcome.apiError "boom", WriteOutcome.ok⟩).1 (by decide),
    ((c4_exit_status ⟨"a.mp3", none, some "k", false⟩
      ⟨FileContent.absent, none, true, ApiOutcome.apiError "boom", WriteOutcome.ok⟩).2.2.2.1
      "boom" (by decide) rfl rfl).1,
    ((c4_exit_status ⟨"a.mp3", none, some "k", false⟩
      ⟨FileContent.absent, none, true, ApiOutcome.apiError "boom", WriteOutcome.ok⟩).2.2.2.1
      "boom" (by decide) rfl rfl).2⟩

/-- C5: when the path does not name an existing regular file,
` transcribe_audio` returns no transcript, reports file-not-found, and the
client is never invoked — whatever the service would have answered. -/
theorem c5_file_not_found_no_network (o : ApiOutcome) :
    transcribe_audio false o = (none, false, [Msg.fileNotFound]) := rfl

/-- C6: `_load_config` yields the empty mapping when the file is absent,
and on a read/parse failure it reports the problem and yields the empty
mapping; it never raises (it is a total function), and a load failure is
never fatal: the run behaves exactly as with an absent file, apart from
the extra report, and the failure report is printed. -/
theorem c6_load_failure_nonfatal (e : String) (args : Args) (w : World) :
    _load_config FileContent.absent = ([], [])
    ∧ _load_config (FileContent.corrupt e) = ([], [Msg.loadFailed e])
    ∧ (runMain args { w with disk := FileContent.corrupt e }).exitCode
        = (runMain args { w with disk := FileContent.absent }).exitCode
    ∧ (runMain args { w with disk := FileContent.corrupt e }).networkCalled
        = (runMain args { w with disk := FileContent.absent }).networkCalled
    ∧ (runMain args { w with disk := FileContent.corrupt e }).transcript
        = (runMain args { w with disk := FileContent.absent }).transcript
    ∧ Msg.loadFailed e ∈ (runMain args { w with disk := FileContent.corrupt e }).msgs := by
  refine ⟨rfl, rfl, ?_, ?_, ?_, ?_⟩ <;>
    by_cases h : truthy (api_key_to_use args.api_key (cfgGet ([] : Config) "api_key" none)
        w.env_api_key) = false <;>
      simp [runMain, _load_config, h]

/-- C7 counterexample: an invocation with `--save` and neither `--api-key`
nor `--base-url`, but also no resolvable api_key, exits at the
missing-credential check before the save branch: no warning is emitted,
refuting the claim as stated for this invocation (the document is still
unchanged). -/
theorem c7_counterexample :
    ¬ (Msg.saveWarning ∈ (runMain ⟨"a.mp3", none, none, true⟩
        ⟨FileContent.absent, none, true, ApiOutcome.ok "t", WriteOutcome.ok⟩).msgs) := by
  decide

/-- C7 (amended): on every invocation with `--save` present but neither
`--api-key` nor `--base-url` supplied, provided an api_key resolves (so
that the run reaches the save branch at all), a warning is emitted and
the stored configuration document is left unchanged. When no api_key
resolves the document is also unchanged, but the run exits with status 1
before emitting the warning. -/
theorem c7_save_nothing_warns (args : Args) (w : World)
    (hs : args.save = true) (hk : args.api_key = none) (hb : args.base_url = none)
    (hres : truthy (resolvedKey args w) = true) :
    Msg.saveWarning ∈ (runMain args w).msgs
    ∧ (runMain args w).finalDisk = w.disk := by
  have h2 : truthy (api_key_to_use none
      (cfgGet (_load_config w.disk).1 "api_key" none) w.env_api_key) = true := by
    have hres2 : truthy (api_key_to_use args.api_key
        (cfgGet (_load_config w.disk).1 "api_key" none) w.env_api_key) = true := hres
    rw [hk] at hres2
    exact hres2
  have ht : truthy none = false := rfl
  simp [runMain, h2, hs, hk, hb, config_to_save, ht]

/-- Witness for C7 (amended): `--save` alone, with the key coming from the
stored configuration. -/
theorem c7_save_nothing_warns_witness :
    Msg.saveWarning ∈ (runMain ⟨"a.mp3", none, none, true⟩
        ⟨FileContent.parses [("api_key", "k")], none, true, ApiOutcome.ok "t", WriteOutcome.ok⟩).msgs
    ∧ (runMain ⟨"a.mp3", none, none, true⟩
        ⟨FileContent.parses [("api_key", "k")], none, true, ApiOutcome.ok "t", WriteOutcome.ok⟩).finalDisk
        = FileContent.parses [("api_key", "k")] :=
  c7_save_nothing_warns ⟨"a.mp3", none, none, true⟩
    ⟨FileContent.parses [("api_key", "k")], none, true, ApiOutcome.ok "t", WriteOutcome.ok⟩
    rfl rfl rfl (by decide)

/-- C8: the empty string is treated like an absent value at every tier of
credential resolution: an empty CLI or stored value falls through to the
next source (for api_key and base_url alike), an empty environment value
leaves the whole run unchanged compared to an unset variable, and when
all three api_key sources are empty strings the run is fatal with exit
status 1 and no network call. -/
theorem c8_empty_string_is_absent (cli stored env : Option String)
    (args : Args) (w : World) :
    api_key_to_use (some "") stored env = api_key_to_use none stored env
    ∧ api_key_to_use cli (some "") env = api_key_to_use cli none env
    ∧ runMain args { w with env_api_key := some "" }
        = runMain args { w with env_api_key := none }
    ∧ base_url_to_use (some "") stored = base_url_to_use none stored
    ∧ truthy (base_url_to_use cli (some "")) = truthy (base_url_to_use cli none)
    ∧ (runMain { args with api_key := some "" }
        { w with disk := FileContent.parses [("api_key", "")],
                 env_api_key := some "" }).exitCode = 1
    ∧ (runMain { args with api_key := some "" }
        { w with disk := FileContent.parses [("api_key", "")],
                 env_api_key := some "" }).networkCalled = false := by
  refine ⟨?_, ?_, ?_, ?_, ?_, ?_, ?_⟩
  · simp [api_key_to_use, pyOr, truthy]
  · simp [api_key_to_use, pyOr, truthy]
  · have hcond : truthy (api_key_to_use args.api_key
        (cfgGet (_load_config w.disk).1 "api_key" none) (some ""))
        = truthy (api_key_to_use args.api_key
          (cfgGet (_load_config w.disk).1 "api_key" none) none) := by
      have he1 : truthy (some "") = false := rfl
      have he2 : truthy none = false := rfl
      simp [api_key_to_use, truthy_pyOr, he1, he2]
    by_cases h : truthy (api_key_to_use args.api_key
        (cfgGet (_load_config w.disk).1 "api_key" none) none) = false
    · simp [runMain, h, hcond.trans h]
    · have h1 : truthy (api_key_to_use args.api_key
          (cfgGet (_load_config w.disk).1 "api_key" none) none) = true := by
        revert h
        cases truthy (api_key_to_use args.api_key
          (cfgGet (_load_config w.disk).1 "api_key" none) none) <;> simp
      simp [runMain, h1, hcond.trans h1]
  · simp [base_url_to_use, pyOr, truthy]
  · have he1 : truthy (some "") = false := rfl
    have he2 : truthy none = false := rfl
    simp [base_url_to_use, truthy_pyOr, he1, he2]
  · simp [runMain, _load_config, cfgGet, dictGet, api_key_to_use, pyOr, truthy]
  · simp [runMain, _load_config, cfgGet, dictGet, api_key_to_use, pyOr, truthy]

/-- C9: when no api_key resolves, the `--save` flag is ignored even when
`--base-url` was supplied: the run exits with status 1 at the credential
check, before the save branch, so the on-disk document is unchanged. -/
theorem c9_no_save_on_missing_key (args : Args) (w : World)
    (h : truthy (resolvedKey args w) = false) :
    (runMain args w).exitCode = 1 ∧ (runMain args w).finalDisk = w.disk := by
  have h2 : truthy (api_key_to_use args.api_key
      (cfgGet (_load_config w.disk).1 "api_key" none) w.env_api_key) = false := h
  simp [runMain, h2]

/-- Witness for C9: `--save` with `--base-url` supplied but no api_key
from any source leaves the (absent) document untouched and exits 1. -/
theorem c9_no_save_on_missing_key_witness :
    truthy (resolvedKey ⟨"a.mp3", some "https://x", none, true⟩
        ⟨FileContent.absent, none, true, ApiOutcome.ok "t", WriteOutcome.ok⟩) = false
    ∧ ((runMain ⟨"a.mp3", some "https://x", none, true⟩
        ⟨FileContent.absent, none, true, ApiOutcome.ok "t", WriteOutcome.ok⟩).exitCode = 1
      ∧ (runMain ⟨"a.mp3", some "https://x", none, true⟩
        ⟨FileContent.absent, none, true, ApiOutcome.ok "t", WriteOutcome.ok⟩).finalDisk
        = FileContent.absent) :=
  ⟨by decide, c9_no_save_on_missing_key _ _ (by decide)⟩

/-- C10 counterexample: a failure during `json.dump` happens after
`open(..., 'w')` has already truncated the file, so it leaves the aborted
write's residue on disk rather than the prior document: "the on-disk
document is left in its prior state" fails for this write failure. -/
theorem c10_counterexample :
    ¬ ((save_config [("base_url", "b")] (FileContent.parses [("base_url", "b")])
        (WriteOutcome.dumpFailed "disk full" (FileContent.corrupt "truncated"))
        [("api_key", "a")]).2.1 = FileContent.parses [("base_url", "b")]) := by
  decide

/-- C10 (amended): `save_config` merges the new values into the in-memory
mapping before attempting the write, and never raises (it is a total
function): on every write failure the failure is reported and the
in-memory mapping retains the merged values, so a subsequent `get k`
returns the new value for every key `k` of `N`; the on-disk document
keeps its prior state exactly when the `open` itself fails, while a
failure after the truncating `open` leaves the aborted write's residue
(save is atomic neither between memory and disk nor within the write). -/
theorem c10_save_not_atomic (mem : Config) (disk : FileContent) (e : String)
    (leftover : FileContent) (n : Config) (hn : keysNodup n = true) :
    (save_config mem disk (WriteOutcome.openFailed e) n).2.1 = disk
    ∧ (save_config mem disk (WriteOutcome.dumpFailed e leftover) n).2.1 = leftover
    ∧ Msg.saveFailed e ∈ (save_config mem disk (WriteOutcome.openFailed e) n).2.2
    ∧ Msg.saveFailed e ∈ (save_config mem disk (WriteOutcome.dumpFailed e leftover) n).2.2
    ∧ (∀ k v, dictGet n k = some v →
        cfgGet (save_config mem disk (WriteOutcome.openFailed e) n).1 k none = some v)
    ∧ (∀ k v, dictGet n k = some v →
        cfgGet (save_config mem disk (WriteOutcome.dumpFailed e leftover) n).1 k none
          = some v) := by
  have hmem : ∀ k v, dictGet n k = some v →
      cfgGet (dictUpdate mem n) k none = some v := by
    intro k v hk
    rw [cfgGet, dictGet_dictUpdate n hn mem k, hk]
  exact ⟨rfl, rfl, by simp [save_config], by simp [save_config],
    fun k v hk => hmem k v hk, fun k v hk => hmem k v hk⟩

/-- Witness for C10: an open-time failure of the write of `api_key=a`
over `base_url=b` leaves the disk untouched while the in-memory `get`
sees the new key; a dump-time failure leaves the truncated residue. -/
theorem c10_save_not_atomic_witness :
    keysNodup [("api_key", "a")] = true
    ∧ (save_config [("base_url", "b")] (FileContent.parses [("base_url", "b")])
        (WriteOutcome.openFailed "denied") [("api_key", "a")]).2.1
        = FileContent.parses [("base_url", "b")]
    ∧ (save_config [("base_url", "b")] (FileContent.parses [("base_url", "b")])
        (WriteOutcome.dumpFailed "denied" (FileContent.corrupt "partial"))
        [("api_key", "a")]).2.1 = FileContent.corrupt "partial"
    ∧ cfgGet (save_config [("base_url", "b")] (FileContent.parses [("base_url", "b")])
        (WriteOutcome.openFailed "denied") [("api_key", "a")]).1 "api_key" none
        = some "a" :=
  ⟨by decide,
    (c10_save_not_atomic [("base_url", "b")] (FileContent.parses [("base_url", "b")])
      "denied" (FileContent.corrupt "partial") [("api_key", "a")] (by decide)).1,
    (c10_save_not_atomic [("base_url", "b")] (FileContent.parses [("base_url", "b")])
      "denied" (FileContent.corrupt "partial") [("api_key", "a")] (by decide)).2.1,
    (c10_save_not_atomic [("base_url", "b")] (FileContent.parses [("base_url", "b")])
      "denied" (FileContent.corrupt "partial") [("api_key", "a")] (by decide)).2.2.2.2.1
      "api_key" "a" (by decide)⟩
